import Mathlib

/-!
Verification of the authentication and role-authorization core of the
CareConnect hospital dashboard (src/streamlit_app.py).

The embedding is shallow. The sqlite users table becomes a list of rows;
SELECT ... WHERE username = ? followed by fetchone becomes a first-match
lookup (username is the PRIMARY KEY, so at most one row matches). The
streamlit per-client session state becomes an explicit record threaded
through the operations. The random salt drawn by bcrypt.gensalt is made
an explicit parameter of every operation that generates one. UI messages
emitted through st.success and st.error are returned as strings.

bcrypt is an external library, not code of this repository; it is
modelled by its documented behaviour: the produced hash embeds the salt,
and verification re-derives the digest from the candidate password and
the embedded salt and compares. The digest itself is idealized as an
injective function of the password (hash collisions are out of scope).
-/

/-- Model of a hash produced by the bcrypt library: the output embeds the
salt used, together with a digest derived from the password and that
salt. -/
structure BcryptHash where
  salt : Nat
  digest : String
  deriving DecidableEq, Repr

/-- bcrypt.hashpw: derive a hash from a password and a salt. The digest
is the idealized injective derivation from the password. -/
def bcrypt_hashpw (password : String) (salt : Nat) : BcryptHash :=
  { salt := salt, digest := password }

/-- bcrypt.gensalt: draws a fresh random salt; the randomness is modelled
by passing the drawn value explicitly. -/
def bcrypt_gensalt (drawn : Nat) : Nat :=
  drawn

/-- bcrypt.checkpw: re-derive the hash from the candidate password and
the salt embedded in the stored hash, and compare with the stored hash. -/
def bcrypt_checkpw (input_password : String) (stored : BcryptHash) : Bool :=
  decide (bcrypt_hashpw input_password stored.salt = stored)

/-- A Python value holding a bcrypt hash either as a utf-8 str or as
bytes. bcrypt output is ASCII, so the round trip through encode and
decode preserves the hash and both forms carry the same `BcryptHash`. -/
inductive PyHashValue where
  | str (h : BcryptHash)
  | bytes (h : BcryptHash)
  deriving DecidableEq, Repr

/-- hash_password (src/streamlit_app.py lines 9-11): generate a salt with
bcrypt.gensalt, hash the password with bcrypt.hashpw, and return the
result decoded to str form. -/
def hash_password (password : String) (saltDraw : Nat) : BcryptHash :=
  bcrypt_hashpw password (bcrypt_gensalt saltDraw)

/-- check_password (lines 14-18): if the stored hash is a str, encode it
to bytes first; then call bcrypt.checkpw on the input password and the
stored hash. -/
def check_password (input_password : String) (stored_hashed_password : PyHashValue) : Bool :=
  let asBytes : BcryptHash :=
    match stored_hashed_password with
    | .str h => h
    | .bytes h => h
  bcrypt_checkpw input_password asBytes

/-- A row of the users table: username TEXT PRIMARY KEY, password TEXT,
role TEXT (lines 38-42). The password column stores the str form of a
bcrypt hash. -/
structure UserRecord where
  username : String
  password : BcryptHash
  role : String
  deriving DecidableEq, Repr

/-- The users table. The PRIMARY KEY invariant is maintained by the code
itself (register refuses duplicates), so a first-match lookup models the
SQL lookup. -/
abbrev UsersDb := List UserRecord

/-- SELECT ... FROM users WHERE username = ? followed by fetchone:
returns the first matching row, or none. -/
def fetchUser (db : UsersDb) (username : String) : Option UserRecord :=
  match db with
  | [] => none
  | rec :: rest =>
      if rec.username == username then some rec else fetchUser rest username

/-- The streamlit session state keys used by the gate (lines 70-75):
authenticated, username, role. -/
structure SessionState where
  authenticated : Bool
  username : Option String
  role : Option String
  deriving DecidableEq, Repr

/-- Initial session state created at client connect (lines 70-75). -/
def initSession : SessionState :=
  { authenticated := false, username := none, role := none }

/-- login (lines 78-87): fetch the row for the username; if a row exists
and check_password accepts the password against its stored str hash, set
authenticated, username and role and report success; otherwise leave the
session untouched and report the generic error message. -/
def login (db : UsersDb) (s : SessionState) (username password : String) :
    SessionState × String :=
  match fetchUser db username with
  | some result =>
      if check_password password (PyHashValue.str result.password) then
        ({ authenticated := true, username := some username, role := some result.role },
          "Login successful!")
      else
        (s, "Invalid username or password")
  | none => (s, "Invalid username or password")

/-- register (lines 89-97): refuse if the username already has a row;
otherwise hash the password and INSERT one new row. -/
def register (db : UsersDb) (username password role : String) (saltDraw : Nat) :
    UsersDb × String :=
  match fetchUser db username with
  | some _ => (db, "Username already exists.")
  | none =>
      (db ++ [{ username := username, password := hash_password password saltDraw,
                role := role }],
        "Registered successfully! You can now log in.")

/-- reset_password (lines 21-24): hash the new password and run
UPDATE users SET password = ? WHERE username = ?. -/
def reset_password (username new_password : String) (saltDraw : Nat) (db : UsersDb) :
    UsersDb :=
  db.map (fun rec =>
    if rec.username == username then
      { rec with password := hash_password new_password saltDraw }
    else rec)

/-- Reset Password tab handler (lines 122-128): check that the username
has a row; if so call reset_password and report success, otherwise
report that the username does not exist. -/
def resetPasswordTab (db : UsersDb) (user_reset new_pass : String) (saltDraw : Nat) :
    UsersDb × String :=
  match fetchUser db user_reset with
  | some _ =>
      (reset_password user_reset new_pass saltDraw db, "Password reset successfully!")
  | none => (db, "Username does not exist.")

/-- Logout button handler (lines 133-137): unconditionally set
authenticated to False and clear username and role. -/
def logout (_s : SessionState) : SessionState :=
  { authenticated := false, username := none, role := none }

/-- Error taxonomy of credential verification. -/
inductive AuthError where
  | UnknownUser
  | InvalidSecret
  deriving DecidableEq, Repr

/-- verify: the credential check performed inside login (lines 79-81),
with its two failure branches labelled: fetchone returning no row is
UnknownUser, a rejecting check_password is InvalidSecret. -/
def verify (db : UsersDb) (username secret : String) : Except AuthError String :=
  match fetchUser db username with
  | none => .error .UnknownUser
  | some result =>
      if check_password secret (PyHashValue.str result.password) then
        .ok result.role
      else
        .error .InvalidSecret

/-- Error taxonomy of the authorization gate. -/
inductive AuthorizationError where
  | NotAuthenticated
  | InsufficientRole
  deriving DecidableEq, Repr

/-- Python membership test `x in allowed` applied to the session role,
which may be None; None is a member of no role list. -/
def roleIn (role : Option String) (allowed : List String) : Bool :=
  match role with
  | some r => allowed.contains r
  | none => false

/-- Role lists guarding the gated dashboard operations (lines 151, 174
and 202). Each list in the source is exactly the admin override together
with the required role: the add-patient and book-appointment forms use
["admin", "receptionist"] and the add-doctor form uses ["admin"]. -/
def gateRoles (requiredRole : String) : List String :=
  if requiredRole == "admin" then ["admin"] else ["admin", requiredRole]

/-- authorize: the two-level gate of the dashboard. Line 100 renders the
gated operations only when st.session_state.authenticated holds, so an
unauthenticated session is denied as NotAuthenticated; an authenticated
session is then denied as InsufficientRole unless its role is in the
guarding role list. The check mutates no state. -/
def authorize (s : SessionState) (requiredRole : String) :
    Except AuthorizationError Unit :=
  if s.authenticated then
    if roleIn s.role (gateRoles requiredRole) then .ok ()
    else .error .InsufficientRole
  else
    .error .NotAuthenticated

/-- Options of the role selectbox in the Register tab (line 114). -/
def roleSelectboxOptions : List String :=
  ["admin", "doctor", "receptionist"]

/-- Session invariant of the data model: role is present iff identity is
present. -/
def sessionInv (s : SessionState) : Prop :=
  s.role.isSome = s.username.isSome

/-- The three concrete role lists in the source are instances of
`gateRoles` at the required roles receptionist and admin. -/
theorem gateRoles_matches_source :
    gateRoles "receptionist" = ["admin", "receptionist"] ∧
    gateRoles "admin" = ["admin"] := by
  constructor <;> rfl

/-- A row returned by the lookup carries the looked-up username. -/
theorem fetchUser_some_username {db : UsersDb} {u : String} {rec : UserRecord}
    (h : fetchUser db u = some rec) : rec.username = u := by
  induction db with
  | nil => simp [fetchUser] at h
  | cons a rest ih =>
      by_cases ha : a.username == u
      · simp only [fetchUser, if_pos ha] at h
        cases h
        exact eq_of_beq ha
      · simp only [fetchUser, if_neg ha] at h
        exact ih h

/-- Looking up in an extended table: if the first part has no row for the
username, the lookup falls through to the second part. -/
theorem fetchUser_append_of_none {db : UsersDb} {u : String}
    (h : fetchUser db u = none) (l : UsersDb) :
    fetchUser (db ++ l) u = fetchUser l u := by
  induction db with
  | nil => rfl
  | cons a rest ih =>
      by_cases ha : a.username = u
      · simp [fetchUser, ha] at h
      · simp only [fetchUser, beq_iff_eq, if_neg ha] at h
        simpa only [List.cons_append, fetchUser, beq_iff_eq, if_neg ha] using ih h

/-- Looking up in a table mapped by a username-preserving row transform
commutes with the transform. -/
theorem fetchUser_map_preserving (f : UserRecord → UserRecord)
    (hf : ∀ rec, (f rec).username = rec.username) (db : UsersDb) (u : String) :
    fetchUser (db.map f) u = (fetchUser db u).map f := by
  induction db with
  | nil => rfl
  | cons a rest ih =>
      simp only [List.map_cons, fetchUser, hf a]
      by_cases ha : a.username == u
      · simp [ha]
      · simp [ha, ih]

/-- Looking up after reset_password: the result is the original row with
its password overwritten when its username matches the reset target. -/
theorem fetchUser_reset (db : UsersDb) (u target newp : String) (saltDraw : Nat) :
    fetchUser (reset_password target newp saltDraw db) u =
      (fetchUser db u).map (fun rec =>
        if rec.username == target then
          { rec with password := hash_password newp saltDraw }
        else rec) := by
  have hf : ∀ rec : UserRecord,
      ((if rec.username == target then
          { rec with password := hash_password newp saltDraw }
        else rec : UserRecord)).username = rec.username := by
    intro rec
    by_cases h : rec.username == target <;> simp [h]
  exact fetchUser_map_preserving _ hf db u

/-- register on a username that already has a row refuses and leaves the
table unchanged. -/
theorem register_of_found {db : UsersDb} {u : String} {rec : UserRecord}
    (h : fetchUser db u = some rec) (s role : String) (saltDraw : Nat) :
    register db u s role saltDraw = (db, "Username already exists.") := by
  simp [register, h]

/-- check_password accepts exactly the password whose idealized digest,
derived with the salt stored in the hash, reproduces the stored hash. -/
theorem check_password_hash_eq (input pw : String) (saltDraw : Nat) :
    check_password input (PyHashValue.str (hash_password pw saltDraw)) =
      (input == pw) := by
  simp only [check_password, bcrypt_checkpw, hash_password, bcrypt_hashpw,
    bcrypt_gensalt, BcryptHash.mk.injEq, true_and]
  by_cases h : input = pw
  · simp [h]
  · simp [h, Ne.symm h]

/-- C7: logout, invoked in any session state, unconditionally transitions
the session to the unauthenticated state, clearing identity and role; it
is idempotent, and a subsequent authorize call fails with
NotAuthenticated. -/
theorem C7_logout_unconditional (s : SessionState) (requiredRole : String) :
    logout s = { authenticated := false, username := none, role := none } ∧
    logout s = initSession ∧
    logout (logout s) = logout s ∧
    authorize (logout s) requiredRole = .error .NotAuthenticated :=
  ⟨rfl, rfl, rfl, rfl⟩

/-- C9: for every password and every drawn salt, hashing with the freshly
generated salt and then checking the same plaintext against the produced
hash verifies, whether the stored hash is supplied as str or as bytes. -/
theorem C9_check_of_hash_roundtrip (p : String) (saltDraw : Nat) :
    check_password p (PyHashValue.str (hash_password p saltDraw)) = true ∧
    check_password p (PyHashValue.bytes (hash_password p saltDraw)) = true := by
  constructor <;>
    simp [check_password, bcrypt_checkpw, hash_password, bcrypt_hashpw, bcrypt_gensalt]

/-- C2: authorize fails with NotAuthenticated on every unauthenticated
session (in particular on the initial session, which never called login);
on an authenticated session with role r it fails with InsufficientRole
when r is neither the required role nor admin, and succeeds otherwise; an
admin session passes authorize for every required role, and a doctor
session fails authorize for admin. authorize returns no session state, so
it has no side effect. -/
theorem C2_authorize_gate (s : SessionState) (requiredRole : String) :
    (s.authenticated = false → authorize s requiredRole = .error .NotAuthenticated) ∧
    authorize initSession requiredRole = .error .NotAuthenticated ∧
    (∀ u r, s = { authenticated := true, username := some u, role := some r } →
      (r ≠ requiredRole → r ≠ "admin" →
        authorize s requiredRole = .error .InsufficientRole) ∧
      (r = requiredRole ∨ r = "admin" → authorize s requiredRole = .ok ())) ∧
    (∀ u : String,
      authorize { authenticated := true, username := some u, role := some "admin" }
        requiredRole = .ok ()) ∧
    (∀ u : String,
      authorize { authenticated := true, username := some u, role := some "doctor" }
        "admin" = .error .InsufficientRole) := by
  refine ⟨?_, rfl, ?_, ?_, ?_⟩
  · intro h
    simp [authorize, h]
  · intro u r hs
    subst hs
    constructor
    · intro hreq hadmin
      by_cases hra : requiredRole = "admin" <;>
        simp [authorize, roleIn, gateRoles, hra, hreq, hadmin]
    · intro hor
      rcases hor with h | h
      · subst h
        by_cases hra : r = "admin" <;> simp [authorize, roleIn, gateRoles, hra]
      · subst h
        by_cases hra : requiredRole = "admin" <;>
          simp [authorize, roleIn, gateRoles, hra]
  · intro u
    by_cases hra : requiredRole = "admin" <;>
      simp [authorize, roleIn, gateRoles, hra]
  · intro u
    simp [authorize, roleIn, gateRoles]

/-- C2 witness: a doctor session is denied the admin-gated operation, and
a session that never called login is denied as NotAuthenticated. -/
theorem C2_authorize_gate_witness :
    authorize { authenticated := true, username := some "d", role := some "doctor" }
      "admin" = .error .InsufficientRole ∧
    authorize initSession "admin" = .error .NotAuthenticated :=
  ⟨((C2_authorize_gate
        { authenticated := true, username := some "d", role := some "doctor" }
        "admin").2.2.1 "d" "doctor" rfl).1 (by decide) (by decide),
    (C2_authorize_gate initSession "admin").2.1⟩

/-- C8: the invariant that role is present iff identity is present holds
in the initial session state and is preserved by login (which sets both
on success and neither on failure), established by logout (which clears
both), and untouched by authorize (which returns no session state). -/
theorem C8_session_invariant_preserved :
    sessionInv initSession ∧
    (∀ (db : UsersDb) (s : SessionState) (u p : String),
      sessionInv s → sessionInv (login db s u p).1) ∧
    (∀ s : SessionState, sessionInv (logout s)) := by
  refine ⟨rfl, ?_, fun s => rfl⟩
  intro db s u p hs
  unfold login
  cases h : fetchUser db u with
  | none => exact hs
  | some result =>
      by_cases hc : check_password p (PyHashValue.str result.password)
      · simp [hc, sessionInv]
      · simpa [hc] using hs

/-- C8 witness: the invariant holds after a login attempt made from the
initial session state against a concrete store. -/
theorem C8_session_invariant_preserved_witness :
    sessionInv (login [] initSession "alice" "pw").1 :=
  C8_session_invariant_preserved.2.1 [] initSession "alice" "pw"
    C8_session_invariant_preserved.1

/-- C1: for a registered user (u, s) whose row stores role r, login
succeeds from any session state and transitions the session to the
authenticated state with identity u and role r; verify on (u, s) returns
the stored role; verify on (u, s2) for any s2 different from s fails with
InvalidSecret; and verify on any unregistered username fails with
UnknownUser. -/
theorem C1_login_and_verify (db : UsersDb) (u s r : String) (saltDraw : Nat)
    (hreg : fetchUser db u =
      some { username := u, password := hash_password s saltDraw, role := r }) :
    (∀ st : SessionState, login db st u s =
      ({ authenticated := true, username := some u, role := some r },
        "Login successful!")) ∧
    verify db u s = .ok r ∧
    (∀ s2 : String, s2 ≠ s → verify db u s2 = .error .InvalidSecret) ∧
    (∀ u2 s2 : String, fetchUser db u2 = none →
      verify db u2 s2 = .error .UnknownUser) := by
  refine ⟨?_, ?_, ?_, ?_⟩
  · intro st
    simp [login, hreg, check_password_hash_eq]
  · simp [verify, hreg, check_password_hash_eq]
  · intro s2 hne
    simp [verify, hreg, check_password_hash_eq, hne]
  · intro u2 s2 h2
    simp [verify, h2]

/-- C1 witness: with alice registered under pw123 as doctor, login
succeeds and authenticates her. -/
theorem C1_login_and_verify_witness :
    login [{ username := "alice", password := hash_password "pw123" 0, role := "doctor" }]
        initSession "alice" "pw123" =
      ({ authenticated := true, username := some "alice", role := some "doctor" },
        "Login successful!") :=
  (C1_login_and_verify
      [{ username := "alice", password := hash_password "pw123" 0, role := "doctor" }]
      "alice" "pw123" "doctor" 0 (by decide)).1 initSession

/-- C4: a failed login attempt, whether the username has no row or the
password check rejects, leaves the session state exactly as it was and
surfaces the single generic message used by both failure paths, which
does not reveal which of the two checks failed. -/
theorem C4_login_failure_generic (db : UsersDb) (st : SessionState) (u p : String) :
    (fetchUser db u = none → login db st u p = (st, "Invalid username or password")) ∧
    (∀ rec, fetchUser db u = some rec →
      check_password p (PyHashValue.str rec.password) = false →
      login db st u p = (st, "Invalid username or password")) := by
  constructor
  · intro h
    simp [login, h]
  · intro rec h hc
    simp [login, h, hc]

/-- C4 witness: a login attempt against an empty store fails with the
generic message and leaves the initial session unchanged. -/
theorem C4_login_failure_generic_witness :
    login [] initSession "mallory" "guess" =
      (initSession, "Invalid username or password") :=
  (C4_login_failure_generic [] initSession "mallory" "guess").1 rfl

/-- C3: register refuses a username that already has a row, leaving the
store unchanged; on a fresh username it appends exactly one new row whose
credential is the salted bcrypt derivation of the secret (a BcryptHash,
not the plaintext secret) and succeeds; hence registering the same
username twice yields exactly one success and one duplicate failure. -/
theorem C3_register_duplicate_protection (db : UsersDb) (u s role s2 role2 : String)
    (saltDraw saltDraw2 : Nat) :
    (∀ rec, fetchUser db u = some rec →
      register db u s role saltDraw = (db, "Username already exists.")) ∧
    (fetchUser db u = none →
      register db u s role saltDraw =
        (db ++ [{ username := u, password := hash_password s saltDraw, role := role }],
          "Registered successfully! You can now log in.")) ∧
    (fetchUser db u = none →
      (register db u s role saltDraw).2 = "Registered successfully! You can now log in." ∧
      register (register db u s role saltDraw).1 u s2 role2 saltDraw2 =
        ((register db u s role saltDraw).1, "Username already exists.")) := by
  refine ⟨?_, ?_, ?_⟩
  · intro rec h
    simp [register, h]
  · intro h
    simp [register, h]
  · intro h
    have hdb1 : (register db u s role saltDraw).1 =
        db ++ [{ username := u, password := hash_password s saltDraw, role := role }] := by
      simp [register, h]
    have hfind : fetchUser (register db u s role saltDraw).1 u =
        some { username := u, password := hash_password s saltDraw, role := role } := by
      rw [hdb1, fetchUser_append_of_none h]
      simp [fetchUser]
    exact ⟨by simp [register, h], register_of_found hfind s2 role2 saltDraw2⟩

/-- C3 witness: registering bob twice in a row yields one success and one
duplicate failure that leaves the store as after the first call. -/
theorem C3_register_duplicate_protection_witness :
    (register [] "bob" "pw" "admin" 0).2 =
      "Registered successfully! You can now log in." ∧
    register (register [] "bob" "pw" "admin" 0).1 "bob" "pw2" "doctor" 1 =
      ((register [] "bob" "pw" "admin" 0).1, "Username already exists.") :=
  (C3_register_duplicate_protection [] "bob" "pw" "admin" "pw2" "doctor" 0 1).2.2 rfl

/-- C10: register stores the role argument verbatim with no validation:
the statement quantifies over every role string whatsoever, including
strings outside the Register tab selectbox options, and the stored row
carries exactly that string; the restriction to admin, doctor and
receptionist lives only in the selectbox option list. -/
theorem C10_role_stored_verbatim (db : UsersDb) (u s role : String) (saltDraw : Nat)
    (hfree : fetchUser db u = none) :
    (register db u s role saltDraw).1 =
      db ++ [{ username := u, password := hash_password s saltDraw, role := role }] ∧
    fetchUser (register db u s role saltDraw).1 u =
      some { username := u, password := hash_password s saltDraw, role := role } ∧
    (register db u s role saltDraw).2 =
      "Registered successfully! You can now log in." ∧
    roleSelectboxOptions = ["admin", "doctor", "receptionist"] := by
  have hdb1 : (register db u s role saltDraw).1 =
      db ++ [{ username := u, password := hash_password s saltDraw, role := role }] := by
    simp [register, hfree]
  refine ⟨hdb1, ?_, by simp [register, hfree], rfl⟩
  rw [hdb1, fetchUser_append_of_none hfree]
  simp [fetchUser]

/-- C10 witness: the role superuser is not among the selectbox options,
yet register stores it verbatim. -/
theorem C10_role_stored_verbatim_witness :
    roleSelectboxOptions.contains "superuser" = false ∧
    fetchUser (register [] "eve" "pw" "superuser" 0).1 "eve" =
      some { username := "eve", password := hash_password "pw" 0, role := "superuser" } :=
  ⟨by decide, (C10_role_stored_verbatim [] "eve" "pw" "superuser" 0 rfl).2.1⟩

/-- C5: the Reset Password tab fails when no row carries the username,
leaving the store unchanged; otherwise it overwrites exactly that row
with a password freshly derived from the new secret, leaving every other
username untouched. The only hypothesis is that the row exists, and the
stored record rec is universally quantified: in particular no
verification of the old secret is required for the reset to take
effect. -/
theorem C5_reset_credential (db : UsersDb) (u newp : String) (saltDraw : Nat) :
    (fetchUser db u = none →
      resetPasswordTab db u newp saltDraw = (db, "Username does not exist.")) ∧
    (∀ rec, fetchUser db u = some rec →
      (resetPasswordTab db u newp saltDraw).2 = "Password reset successfully!" ∧
      fetchUser (resetPasswordTab db u newp saltDraw).1 u =
        some { rec with password := hash_password newp saltDraw } ∧
      (∀ u2, u2 ≠ u →
        fetchUser (resetPasswordTab db u newp saltDraw).1 u2 = fetchUser db u2)) := by
  constructor
  · intro h
    simp [resetPasswordTab, h]
  · intro rec h
    have hdb1 : (resetPasswordTab db u newp saltDraw).1 =
        reset_password u newp saltDraw db := by
      simp [resetPasswordTab, h]
    refine ⟨by simp [resetPasswordTab, h], ?_, ?_⟩
    · rw [hdb1, fetchUser_reset, h]
      have hu := fetchUser_some_username h
      simp [hu]
    · intro u2 hne
      rw [hdb1, fetchUser_reset]
      cases h2 : fetchUser db u2 with
      | none => rfl
      | some rec2 =>
          have hu2 := fetchUser_some_username h2
          simp [hu2, hne]

/-- C5 witness: resetting the password of a registered alice overwrites
her stored credential with the freshly derived hash. -/
theorem C5_reset_credential_witness :
    fetchUser (resetPasswordTab
        [{ username := "alice", password := hash_password "old" 0, role := "doctor" }]
        "alice" "new" 1).1 "alice" =
      some { username := "alice", password := hash_password "new" 1, role := "doctor" } :=
  ((C5_reset_credential
      [{ username := "alice", password := hash_password "old" 0, role := "doctor" }]
      "alice" "new" 1).2
    { username := "alice", password := hash_password "old" 0, role := "doctor" }
    (by decide)).2.1

/-- C6: for a registered username u whose row stores the derivation of
oldp, after the Reset Password tab runs with new secret newp, verify on
(u, newp) succeeds with the stored role, and verify on (u, oldp) fails
with InvalidSecret whenever oldp differs from newp. -/
theorem C6_reset_then_verify (db : UsersDb) (u oldp newp r : String)
    (salt0 salt1 : Nat)
    (hreg : fetchUser db u =
      some { username := u, password := hash_password oldp salt0, role := r })
    (hne : oldp ≠ newp) :
    verify (resetPasswordTab db u newp salt1).1 u newp = .ok r ∧
    verify (resetPasswordTab db u newp salt1).1 u oldp = .error .InvalidSecret := by
  have hdb1 : (resetPasswordTab db u newp salt1).1 =
      reset_password u newp salt1 db := by
    simp [resetPasswordTab, hreg]
  have hfind : fetchUser (resetPasswordTab db u newp salt1).1 u =
      some { username := u, password := hash_password newp salt1, role := r } := by
    rw [hdb1, fetchUser_reset, hreg]
    simp
  constructor
  · simp [verify, hfind, check_password_hash_eq]
  · simp [verify, hfind, check_password_hash_eq, hne]

/-- C6 witness: after resetting alice from old to new, the new secret
verifies and the old secret is rejected. -/
theorem C6_reset_then_verify_witness :
    verify (resetPasswordTab
        [{ username := "alice", password := hash_password "old" 0, role := "doctor" }]
        "alice" "new" 1).1 "alice" "new" = .ok "doctor" ∧
    verify (resetPasswordTab
        [{ username := "alice", password := hash_password "old" 0, role := "doctor" }]
        "alice" "new" 1).1 "alice" "old" = .error .InvalidSecret :=
  C6_reset_then_verify
    [{ username := "alice", password := hash_password "old" 0, role := "doctor" }]
    "alice" "old" "new" "doctor" 0 1 (by decide) (by decide)
